import Mathlib

/-!
Verification development for the plasma gcode preprocessor
(`qtpyvcp/tools/plasma_gcode_preprocessor.py`).

The embedding models the per-line classifier (`CodeLine.__init__` and its
handler methods), the modal-state tracker (`PreProcessor.set_active_g_modal`),
the parse driver (`PreProcessor.parse`), the hole detector
(`PreProcessor.flag_holes`), the HiDef interpolator (`HiDefHole`), the hole
generator (`HoleBuilder.plasma_hole`) and the serializer
(`PreProcessor.dump_parsed`).

Numeric values are modelled as exact rationals (the Python code computes in
IEEE doubles; every concrete value exercised here is exactly representable
and every arithmetic step exercised here is exact in both worlds).
Fallible Python operations (`float(...)`, `int(...)`, `dict[key]`,
`list[1]` on a short list) are modelled with `Option`, `none` standing for
an uncaught exception. Python `str` operations are modelled on the
underlying character lists (the inputs are ASCII gcode text).
-/

namespace PlasmaGcode

/-! ### Python string primitives -/

/-- Python's `\s` / `str.strip` whitespace class (ASCII part). -/
def isPySpace (c : Char) : Bool :=
  c = ' ' ∨ c = '\t' ∨ c = '\n' ∨ c = '\x0d' ∨ c = '\x0b' ∨ c = '\x0c'

/-- `str.strip()` on a character list. -/
def trimL (l : List Char) : List Char :=
  ((l.dropWhile isPySpace).reverse.dropWhile isPySpace).reverse

/-- `str.strip()`. -/
def trimS (s : String) : String := ⟨trimL s.data⟩

/-- Removal of trailing whitespace only (used to state round-trip
comparisons up to trailing whitespace). -/
def trimRightL (l : List Char) : List Char :=
  (l.reverse.dropWhile isPySpace).reverse

/-- `str.upper()` (ASCII). -/
def upperS (s : String) : String := ⟨s.data.map Char.toUpper⟩

/-- Anchored regex match `re.search("^tok", s) != None`, i.e. `s` starts
with `tok` (the `{1}` the source appends to each pattern is a no-op). -/
def startsWithS (s tok : String) : Bool := tok.data.isPrefixOf s.data

/-- The text after the first occurrence of `tok` in `l`:
`re.split(tok, s, 1)[1]`.  `none` models the `IndexError` raised when the
separator does not occur. -/
def afterFirstL (tok : List Char) : List Char → Option (List Char)
  | [] => none
  | c :: rest =>
    if tok.isPrefixOf (c :: rest) then some ((c :: rest).drop tok.length)
    else afterFirstL tok rest

/-- Numeric value of a digit list, most significant first. -/
def natOfDigits (l : List Char) : ℕ :=
  l.foldl (fun a c => a * 10 + (c.toNat - 48)) 0

/-- Python `int(s)`: optional surrounding whitespace, optional sign,
one or more digits.  `none` models `ValueError`. -/
def parseIntPy (s : String) : Option ℤ :=
  let l := trimL s.data
  let (sgn, t) : ℤ × List Char :=
    match l with
    | '+' :: t => (1, t)
    | '-' :: t => (-1, t)
    | t => (1, t)
  if t ≠ [] ∧ t.all Char.isDigit then some (sgn * natOfDigits t) else none

/-- Python `float(s)` restricted to the decimal forms the preprocessor's
regexes can produce: optional surrounding whitespace, optional sign, then
`digits`, `digits.digits`, `digits.` or `.digits`.  `none` models
`ValueError`. -/
def parseFloatPy (s : String) : Option ℚ :=
  let l := trimL s.data
  let (sgn, t) : ℚ × List Char :=
    match l with
    | '+' :: t => (1, t)
    | '-' :: t => (-1, t)
    | t => (1, t)
  let ip := t.takeWhile Char.isDigit
  let rest := t.drop ip.length
  match rest with
  | [] => if ip = [] then none else some (sgn * natOfDigits ip)
  | '.' :: fr =>
    let fd := fr.takeWhile Char.isDigit
    if fr.drop fd.length ≠ [] then none
    else if ip = [] ∧ fd = [] then none
    else some (sgn * ((natOfDigits ip : ℚ) + natOfDigits fd / 10 ^ fd.length))
  | _ => none

/-! ### Small association maps (Python `dict` with insertion order) -/

/-- `dict[k] = v` on an insertion-ordered association list: replace in
place if the key exists, else append. -/
def dictInsert (l : List (Char × ℚ)) (k : Char) (v : ℚ) : List (Char × ℚ) :=
  match l with
  | [] => [(k, v)]
  | (k', v') :: rest =>
    if k' = k then (k, v) :: rest else (k', v') :: dictInsert rest k v

/-- `dict.get(k)` for the parameter map. -/
def lookupD (l : List (Char × ℚ)) (k : Char) : Option ℚ :=
  match l with
  | [] => none
  | (k', v) :: rest => if k' = k then some v else lookupD rest k

/-- `dict[g] = c` on the modal-group map. -/
def setG (l : List (ℕ × String)) (g : ℕ) (c : String) : List (ℕ × String) :=
  match l with
  | [] => [(g, c)]
  | (g', c') :: rest =>
    if g' = g then (g, c) :: rest else (g', c') :: setG rest g c

/-- `dict.get(g)` on the modal-group map (`none` models `KeyError`). -/
def lookupG (l : List (ℕ × String)) (g : ℕ) : Option String :=
  match l with
  | [] => none
  | (g', c) :: rest => if g' = g then some c else lookupG rest g

/-! ### Regex scanners

`CodeLine.__init__` scans for `re.findall(r"G\d+|T\s*\d+|M\d+", ...)` and,
for the tool-change combo, `re.findall("T\s*\d+|M6", ...)`.  Both are
modelled as left-to-right scanners that at each position try the
alternatives in order, take maximal digit runs, continue after a match and
advance one character on failure. -/

/-- The scanning loop behind `re.findall(r"G\d+|T\s*\d+|M\d+", s)`.  Each
step consumes at least one character, so fuel equal to the input length is
exact; the fuel argument only makes the recursion structural (and hence
kernel-evaluable). -/
def multiCodesGo : ℕ → List Char → List String
  | 0, _ => []
  | _ + 1, [] => []
  | fuel + 1, c :: rest =>
    if c = 'G' ∨ c = 'M' then
      let digits := rest.takeWhile Char.isDigit
      if digits = [] then multiCodesGo fuel rest
      else String.mk (c :: digits) :: multiCodesGo fuel (rest.drop digits.length)
    else if c = 'T' then
      let sp := rest.takeWhile isPySpace
      let digits := (rest.drop sp.length).takeWhile Char.isDigit
      if digits = [] then multiCodesGo fuel rest
      else
        String.mk (c :: (sp ++ digits)) ::
          multiCodesGo fuel (rest.drop (sp.length + digits.length))
    else multiCodesGo fuel rest

/-- `re.findall(r"G\d+|T\s*\d+|M\d+", s)` over a character list: at each
position try `G\d+`, `T\s*\d+`, `M\d+`, take maximal digit runs, continue
after a match and advance one character on failure. -/
def multiCodesL (l : List Char) : List String := multiCodesGo l.length l

/-- `re.findall(r"G\d+|T\s*\d+|M\d+", s.upper().strip())` on a string. -/
def multiCodes (s : String) : List String := multiCodesL s.data

/-- The scanning loop behind `re.findall("T\s*\d+|M6", s)`. -/
def findallTM6Go : ℕ → List Char → List String
  | 0, _ => []
  | _ + 1, [] => []
  | fuel + 1, c :: rest =>
    if c = 'T' then
      let sp := rest.takeWhile isPySpace
      let digits := (rest.drop sp.length).takeWhile Char.isDigit
      if digits = [] then findallTM6Go fuel rest
      else
        String.mk (c :: (sp ++ digits)) ::
          findallTM6Go fuel (rest.drop (sp.length + digits.length))
    else if c = 'M' then
      if rest.head? = some '6' then "M6" :: findallTM6Go fuel (rest.drop 1)
      else findallTM6Go fuel rest
    else findallTM6Go fuel rest

/-- `re.findall("T\s*\d+|M6", s)`: note the second alternative is the
two-character literal `M6`, so it also matches the first two characters of
`M66`. -/
def findallTM6 (s : String) : List String := findallTM6Go s.data.length s.data

/-! ### Modal group tables (`G_MODAL_GROUPS`) -/

/-- The static `G_MODAL_GROUPS` table of the source. -/
def G_MODAL_GROUPS : List (ℕ × List String) :=
  [(1, ["G0", "G1", "G2", "G3", "G33", "G38.n", "G73", "G76", "G80", "G81",
        "G82", "G83", "G84", "G85", "G86", "G87", "G88", "G89"]),
   (2, ["G17", "G18", "G19", "G17.1", "G18.1", "G19.1"]),
   (3, ["G90", "G91"]),
   (4, ["G90.1", "G91.1"]),
   (5, ["G93", "G94", "G95"]),
   (6, ["G20", "G21"]),
   (7, ["G40", "G41", "G42", "G41.1", "G42.1"]),
   (8, ["G43", "G43.1", "G49"]),
   (10, ["G98", "G99"]),
   (12, ["G54", "G55", "G56", "G57", "G58", "G59", "G59.1", "G59.2", "G59.3"]),
   (13, ["G61", "G61.1", "G64"]),
   (14, ["G96", "G97"]),
   (15, ["G7", "G8"])]

/-- `PreProcessor.set_active_g_modal`: look the code up in the group table
and overwrite that group's active code; no-op when the code belongs to no
group. -/
def set_active_g_modal (grps : List (ℕ × String)) (gcode : String) :
    List (ℕ × String) :=
  match G_MODAL_GROUPS.find? (fun p => gcode ∈ p.2) with
  | some p => setG grps p.1 gcode
  | none => grps

/-- The modal groups seeded by `PreProcessor.parse` before the first line
(`G91.1` then `G40`). -/
def initGrps : List (ℕ × String) :=
  set_active_g_modal (set_active_g_modal [] "G91.1") "G40"

/-! ### Data model -/

/-- The value slot of a parsed command tuple (`self.command[1]`). -/
inductive PyVal where
  | int (n : ℤ)
  | float (q : ℚ)
  | pynone
  deriving DecidableEq

/-- `self.command`: the empty tuple `()` or a `(letter, value)` pair. -/
inductive Cmd where
  | empty
  | mk (letter : Char) (v : PyVal)
  deriving DecidableEq

/-- The members of the `Commands` enum this development exercises. -/
inductive LineType where
  | COMMENT | MOVE_LINEAR | MOVE_ARC | ARC_RELATIVE | ARC_ABSOLUTE
  | TOOLCHANGE | PASSTHROUGH | OTHER | XY | MATERIAL_CHANGE
  | FEEDRATE_MATERIAL | FEEDRATE_LINE
  | CUTTER_COMP_LEFT | CUTTER_COMP_RIGHT | CUTTER_COMP_OFF
  | HOLE_MODE | HOLE_DIAM | HOLE_VEL | HOLE_OVERCUT | PIERCE_MODE
  | UNITS | PATH_BLENDING | ADAPTIVE_FEED | SPINDLE_ON | SPINDLE_OFF
  | DIGITAL_IN | REMOVE
  deriving DecidableEq

/-- One row of the cut-process database (`cut_by_id(...)[0]`, with the
nested `thickness.thickness` flattened). -/
structure CutProcess where
  cut_speed : ℚ
  thickness : ℚ
  machineid : ℤ
  thicknessid : ℤ
  materialid : ℤ
  deriving DecidableEq

/-- The parser-owned mutable state of `PreProcessor` (the modal-group map
plus the active-process context and the `UNITS_PER_MM` global). -/
structure PState where
  grps : List (ℕ × String) := initGrps
  active_cutchart : Option ℤ := none
  active_feedrate : Option ℚ := none
  active_thickness : Option ℚ := none
  active_machineid : Option ℤ := none
  active_thicknessid : Option ℤ := none
  active_materialid : Option ℤ := none
  unitsPerMM : ℚ := 1
  deriving DecidableEq

/-! ### `HoleBuilder` gcode elements

Each `create_*` method of `HoleBuilder` returns a small dict; they are
modelled as the constructors of one inductive.  `create_debug_comment`
returns a dict whose `code` is `None` when the `DEBUG_COMMENTS` global is
false (it is initialised to `False` and never set elsewhere in the file), so
the element lists have type `List (Option GCode)` with `none` standing for
a suppressed debug element. -/

/-- The `DEBUG_COMMENTS` global of the source (constant `False`). -/
def DEBUG_COMMENTS : Bool := false

/-- One gcode element produced by a `HoleBuilder.create_*` method. -/
inductive GCode where
  /-- `create_comment`: `({txt})`. -/
  | comment (txt : String)
  /-- `create_debug_comment` when `DEBUG_COMMENTS` is set: bare `txt`. -/
  | debugComment (txt : String)
  /-- `create_ccw_arc_gcode`: `G3 x y i j`. -/
  | ccwArc (x y i j : ℚ)
  /-- `create_cw_arc_gcode`: `G2 x y i j`. -/
  | cwArc (x y i j : ℚ)
  /-- `create_line_gcode`: `G0 x y` when rapid, else `G1 x y`. -/
  | lineMove (rapid : Bool) (x y : ℚ)
  /-- `create_cut_on_off_gcode`: `M3 $0` / `M5 $-1`. -/
  | cutOnOff (cut_on : Bool)
  /-- `create_kerf_off_gcode`: `G40`. -/
  | kerfOff
  /-- `create_dwell`: `G4 P{t}`. -/
  | dwell (t : ℚ)
  /-- `create_feed`: `F{r}`. -/
  | feed (r : ℚ)
  /-- `create_absolute_arc`: `G90.1`. -/
  | absoluteArc
  /-- `create_relative_arc`: `G91.1`. -/
  | relativeArc
  /-- `create_thc_off_synch`: `M62 P2`. -/
  | thcOffSynch
  /-- `create_thc_on_synch`: `M63 P2`. -/
  | thcOnSynch
  /-- `create_marking_voltage_wait`: `M66 P3 L3 Q10`. -/
  | markingVoltageWait
  deriving DecidableEq

/-- `create_debug_comment`: `none` (a `code: None` dict) unless the debug
global is set. -/
def create_debug_comment (txt : String) : Option GCode :=
  if DEBUG_COMMENTS then some (.debugComment txt) else none

/-! ### `CodeLine` -/

/-- The per-line record built by `CodeLine.__init__` and later annotated by
`flag_holes`.  `stderr_count` models the number of
`ERROR:CUTTER_COMP:INVALID GCODE FOUND` messages printed to the error
stream while this line was classified; `compError` models the presence of
the `compError` key in `self.errors`. -/
structure CodeLine where
  command : Cmd := .empty
  params : List (Char × ℚ) := []
  comment : String := ""
  raw : String
  compError : Bool := false
  type : Option LineType := none
  is_hole : Bool := false
  token : String := ""
  active_g_modal_groups : List (ℕ × String) := []
  cutchart_id : Option ℤ := none
  stderr_count : ℕ := 0
  hole_builder : Option (List (Option GCode)) := none
  deriving DecidableEq

/-- Characters the parameter-value regex class `[\d\+\.-]` accepts. -/
def isValC (c : Char) : Bool := c.isDigit ∨ c = '+' ∨ c = '.' ∨ c = '-'

/-- The shared parameter scanner of `parse_linear` / `parse_arc` /
`parse_XY_line`: `re.finditer(r"X[\d\+\.-]*|Y[\d\+\.-]*|...", line)`, then
for each match split letter and value and record the pair only when a value
is present.  Returns the updated parameter dict and whether at least one
match was found; `none` models the `ValueError` of `float(...)` on a
malformed value run. -/
def extractParamsGo (letters : List Char) :
    ℕ → List Char → List (Char × ℚ) → Bool → Option (List (Char × ℚ) × Bool)
  | 0, _, acc, found => some (acc, found)
  | _ + 1, [], acc, found => some (acc, found)
  | fuel + 1, c :: rest, acc, found =>
    if c ∈ letters then
      let run := rest.takeWhile isValC
      if run = [] then extractParamsGo letters fuel rest acc true
      else
        match parseFloatPy ⟨run⟩ with
        | none => none
        | some v =>
          extractParamsGo letters fuel (rest.drop run.length)
            (dictInsert acc c v) true
    else extractParamsGo letters fuel rest acc found

/-- The scanner proper: fuel equal to the input length is exact (each step
consumes at least one character); it only makes the recursion
structural. -/
def extractParams (letters : List Char) (l : List Char)
    (acc : List (Char × ℚ)) (found : Bool) :
    Option (List (Char × ℚ) × Bool) :=
  extractParamsGo letters l.length l acc found

/-- `CodeLine.strip_inline_comment`: the text before the first `;` or `(`,
stripped. -/
def strip_inline_comment (line : String) : String :=
  ⟨trimL (line.data.takeWhile (fun c => ¬(c = ';' ∨ c = '(')))⟩

/-- First `;` or `(` in a character list, with the following text. -/
def findInline : List Char → Option (Char × List Char)
  | [] => none
  | c :: rest => if c = ';' ∨ c = '(' then some (c, rest) else findInline rest

/-- `CodeLine.parse_inline_comment`: search `raw[1:]` for `;` or `(` and
capture the delimiter together with the trailing text. -/
def parse_inline_comment (cl : CodeLine) : CodeLine :=
  match findInline (cl.raw.data.drop 1) with
  | some (c, rest) => { cl with comment := ⟨c :: rest⟩ }
  | none => { cl with comment := "" }

/-- `CodeLine.parse_comment`. -/
def parse_comment (cl : CodeLine) : CodeLine :=
  { cl with comment := cl.raw, command := .mk ';' .pynone, params := [] }

/-- `CodeLine.parse_linear` (token `G0` or `G1`): split the uppercased raw
line at the token and scan the remainder for X/Y words. -/
def parse_linear (k : String) (cl : CodeLine) : Option CodeLine := do
  let n ← parseIntPy ⟨k.data.drop 1⟩
  let after ← afterFirstL k.data (upperS cl.raw).data
  let (ps, _) ← extractParams ['X', 'Y'] (trimL after) cl.params false
  pure { cl with command := .mk 'G' (.int n), params := ps }

/-- `CodeLine.parse_arc` (token `G2` or `G3`): like `parse_linear` but the
inline comment is stripped first and I/J/P words are also scanned. -/
def parse_arc (k : String) (cl : CodeLine) : Option CodeLine := do
  let n ← parseIntPy ⟨k.data.drop 1⟩
  let after ← afterFirstL k.data (upperS (strip_inline_comment cl.raw)).data
  let (ps, _) ← extractParams ['X', 'Y', 'I', 'J', 'P'] (trimL after) cl.params false
  pure { cl with command := .mk 'G' (.int n), params := ps }

/-- `CodeLine.parse_XY_line`: scan the whole uppercased stripped raw line
for X/Y words; any match (even a bare letter with no value) reclassifies
the line as `XY`. -/
def parse_XY_line (cl : CodeLine) : Option CodeLine := do
  let (ps, found) ← extractParams ['X', 'Y'] (trimL (upperS cl.raw).data) cl.params false
  pure (if found then { cl with params := ps, type := some .XY } else cl)

/-- The error comment `parse_toolchange` rewrites `self.raw` to when the
tool id has no database record. -/
def errCommentOf (raw : String) : String :=
  "; ERROR: Invalid Cutchart ID in Tx. Check CAM Tools: " ++ raw

/-- The common tail of `CodeLine.parse_toolchange`: query the database and
either rewrite the raw line as an error comment or record the resolved
process as the parent's active context. -/
def toolchangeLookup (db : ℤ → Option CutProcess) (tool : ℤ)
    (cl : CodeLine) (st : PState) : CodeLine × PState :=
  match db tool with
  | none => ({ cl with raw := errCommentOf cl.raw }, st)
  | some cp =>
    ({ cl with cutchart_id := some tool },
     { st with
        active_cutchart := some tool
        active_feedrate := some cp.cut_speed
        active_thickness := some cp.thickness
        active_machineid := some cp.machineid
        active_thicknessid := some cp.thicknessid
        active_materialid := some cp.materialid })

/-- `CodeLine.parse_toolchange` with `combo=False` (a standalone `Tn`
line): parse the id after the `T`, set the command and the `TOOLCHANGE`
type, then look the process up. -/
def parse_toolchange (db : ℤ → Option CutProcess) (cl : CodeLine)
    (st : PState) : Option (CodeLine × PState) := do
  let t ← afterFirstL ['T'] (strip_inline_comment cl.raw).data
  let tool ← parseIntPy ⟨t⟩
  pure (toolchangeLookup db tool
    { cl with command := .mk 'T' (.int tool), type := some .TOOLCHANGE } st)

/-- `CodeLine.parse_toolchange` with `combo=True` (a `Tx M6` pair on a
multi-command line): the id is parsed from the first `T\s*\d+|M6` match of
the comment-stripped uppercased line (an `IndexError`/`ValueError`, e.g.
when that first match is `M6`, is modelled as `none`) and the line type is
forced back to `PASSTHROUGH`. -/
def parse_toolchange_combo (db : ℤ → Option CutProcess) (cl : CodeLine)
    (st : PState) : Option (CodeLine × PState) := do
  match findallTM6 (trimS (upperS (strip_inline_comment cl.raw))) with
  | [] => none
  | f0 :: _ =>
    let t ← afterFirstL ['T'] f0.data
    let tool ← parseIntPy ⟨t⟩
    pure (toolchangeLookup db tool { cl with type := some .PASSTHROUGH } st)

/-- `CodeLine.parse_feedrate` (token `F`): parse the literal value after
the `F`, but replace it with the parent's active feed rate whenever one is
set. -/
def parse_feedrate (cl : CodeLine) (st : PState) : Option CodeLine := do
  let t ← afterFirstL ['F'] (strip_inline_comment cl.raw).data
  let lit ← parseFloatPy ⟨t⟩
  pure { cl with command := .mk 'F' (.float (match st.active_feedrate with
    | some f => f
    | none => lit)) }

/-- `CodeLine.set_inches`. -/
def set_inches (cl : CodeLine) (st : PState) : CodeLine × PState :=
  ({ cl with command := .mk 'G' (.int 20) }, { st with unitsPerMM := 127 / 5 })

/-- `CodeLine.set_mms`. -/
def set_mms (cl : CodeLine) (st : PState) : CodeLine × PState :=
  ({ cl with command := .mk 'G' (.int 21) }, { st with unitsPerMM := 1 })

/-- `CodeLine.cutter_comp_error`: record the `compError` error, print one
diagnostic to the error stream and mark the line for removal. -/
def cutter_comp_error (cl : CodeLine) : CodeLine :=
  { cl with compError := true, stderr_count := cl.stderr_count + 1,
            type := some .REMOVE }

/-! ### Token table and the classifier driver -/

/-- Handler selector for the single-command token table. -/
inductive Hd where
  | linear | inches | mms | arc | compErr | placeholder | passthru
  | feedrate | commentH | toolchange
  deriving DecidableEq

/-- The `tokens` dict of `CodeLine.__init__`, in its literal insertion
order (the order is the classifier's fixed priority: the first key whose
anchored pattern matches wins). -/
def TOKENS : List (String × LineType × Hd) :=
  [("G0", .MOVE_LINEAR, .linear),
   ("G1", .MOVE_LINEAR, .linear),
   ("G20", .UNITS, .inches),
   ("G21", .UNITS, .mms),
   ("G2", .MOVE_ARC, .arc),
   ("G3", .MOVE_ARC, .arc),
   ("G41", .CUTTER_COMP_LEFT, .compErr),
   ("G42", .CUTTER_COMP_RIGHT, .compErr),
   ("G41.1", .CUTTER_COMP_LEFT, .compErr),
   ("G42.1", .CUTTER_COMP_RIGHT, .compErr),
   ("G40", .CUTTER_COMP_OFF, .placeholder),
   ("G64", .PATH_BLENDING, .passthru),
   ("M52", .ADAPTIVE_FEED, .passthru),
   ("M3", .SPINDLE_ON, .passthru),
   ("M5", .SPINDLE_OFF, .passthru),
   ("M190", .MATERIAL_CHANGE, .passthru),
   ("M66", .DIGITAL_IN, .passthru),
   ("G91.1", .ARC_RELATIVE, .passthru),
   ("G90.1", .ARC_ABSOLUTE, .passthru),
   ("F#", .FEEDRATE_MATERIAL, .passthru),
   ("F", .FEEDRATE_LINE, .feedrate),
   ("#<holes>", .HOLE_MODE, .placeholder),
   ("#<h_diameter>", .HOLE_DIAM, .placeholder),
   ("#<h_velocity>", .HOLE_VEL, .placeholder),
   ("#<oclength>", .HOLE_OVERCUT, .placeholder),
   ("#<pierce-only>", .PIERCE_MODE, .placeholder),
   (";", .COMMENT, .commentH),
   ("(", .COMMENT, .commentH),
   ("T", .TOOLCHANGE, .toolchange)]

/-- Invoke the handler bound to a matched token. -/
def dispatch (db : ℤ → Option CutProcess) (h : Hd) (k : String)
    (cl : CodeLine) (st : PState) : Option (CodeLine × PState) :=
  match h with
  | .linear => (parse_linear k cl).map (·, st)
  | .inches => some (set_inches cl st)
  | .mms => some (set_mms cl st)
  | .arc => (parse_arc k cl).map (·, st)
  | .compErr => some (cutter_comp_error cl, st)
  | .placeholder => some (cl, st)
  | .passthru => some ({ cl with type := some .PASSTHROUGH }, st)
  | .feedrate => (parse_feedrate cl st).map (·, st)
  | .commentH => some (parse_comment cl, st)
  | .toolchange => parse_toolchange db cl st

/-- The cutter-compensation codes the multi-command scan rejects. -/
def compCodes : List String := ["G41", "G42", "G41.1", "G42.1"]

/-- `CodeLine.__init__`: classify one raw line (already stripped by the
parse driver) against the current parser state.  Returns the classified
line and the state as updated by any tool-change side effect; `none`
models an uncaught exception. -/
def mkCodeLine (db : ℤ → Option CutProcess) (line : String) (st : PState) :
    Option (CodeLine × PState) :=
  let base : CodeLine := { raw := line }
  let up := trimS (upperS line)
  let codes := multiCodes up
  if codes.length > 1 then
    -- multiple command tokens: pass through, but scan for bad codes and
    -- for a tool-change combo
    let cc := (codes.filter (fun c => c ∈ compCodes)).length
    let cl := { base with type := some .PASSTHROUGH }
    let cl := if cc > 0 then
        { cl with type := some .REMOVE, compError := true, stderr_count := cc }
      else cl
    if (findallTM6 up).length = 2 then parse_toolchange_combo db cl st
    else some (cl, st)
  else
    -- single-command path: first token whose anchored prefix matches wins
    match TOKENS.find? (fun t => startsWithS (upperS line) t.1) with
    | some (k, ty, h) => do
      let cl := { base with type := some ty, token := k }
      let (cl, st') ← dispatch db h k cl st
      let cl := if cl.type ≠ some .COMMENT then parse_inline_comment cl else cl
      if cl.type = some .PASSTHROUGH then
        (parse_XY_line cl).map (·, st')
      else pure (cl, st')
    | none =>
      let cl := { base with type := some .PASSTHROUGH }
      (parse_XY_line cl).map (·, st)

/-- One iteration of the loop in `PreProcessor.parse`: strip the raw file
line, classify it, feed its token to the modal tracker, then snapshot the
modal groups into the line. -/
def parseStep (db : ℤ → Option CutProcess) (st : PState) (line : String) :
    Option (CodeLine × PState) :=
  (mkCodeLine db (trimS line) st).map fun p =>
    let grps := set_active_g_modal p.2.grps p.1.token
    ({ p.1 with active_g_modal_groups := grps }, { p.2 with grps := grps })

/-! ### Serializer (`PreProcessor.dump_parsed`) -/

/-- `f"{l.command[0]}{l.command[1]}"`, with the empty-tuple `IndexError`
caught as `''`.  `fmtQ` stands for Python's `str(float)` rendering. -/
def cmdStr (fmtQ : ℚ → String) : Cmd → String
  | .empty => ""
  | .mk letter v =>
    String.singleton letter ++
      (match v with
       | .int n => toString n
       | .float q => fmtQ q
       | .pynone => "None")

/-- The reconstruction the serializer's final branch performs from parsed
fields alone: command, then each parameter in discovery order, then the
captured comment, stripped. -/
def renderFields (fmtQ : ℚ → String) (cmd : Cmd) (ps : List (Char × ℚ))
    (comment : String) : String :=
  trimS (cmdStr fmtQ cmd ++
    ps.foldl (fun acc pr => acc ++ " " ++ String.singleton pr.1 ++ fmtQ pr.2) ""
    ++ " " ++ comment)

/-- `PreProcessor.dump_parsed`, per line: the text lines printed to the
output stream for one parsed line.  `fmtQ` stands for Python's
`str(float)`; `fmtE` for `element_to_gcode_line`'s fixed-precision float
formatting (no verified claim depends on either rendering). -/
def dumpLines (fmtQ : ℚ → String) (fmtE : GCode → String) (l : CodeLine) :
    List String :=
  if l.is_hole then
    "(---- Smart Hole Start ----)" ::
      ((l.hole_builder.getD []).filterMap id).map fmtE ++
      ["(---- Smart Hole End ----)", ""]
  else if l.type = some .COMMENT then [l.comment]
  else if l.type = some .OTHER then ["; >>  " ++ l.raw]
  else if l.type = some .PASSTHROUGH then [l.raw]
  else if l.type = some .REMOVE then []
  else [renderFields fmtQ l.command l.params l.comment]

/-! ### Hole detection (`PreProcessor.flag_holes`, detection step) -/

/-- The group-1 codes the backward cursor scan accepts
(`prev.active_g_modal_groups[1] in ('G0','G1','G2','G3')`). -/
def motionCodes : List String := ["G0", "G1", "G2", "G3"]

/-- The backward scan of `flag_holes` step 1: over the lines preceding the
arc (nearest first), find the first line whose parameter dict has the given
axis while its snapshot's group 1 is a motion code.  A line that has the
axis but whose snapshot has no group-1 entry raises `KeyError` in the
source and aborts the pass; like scan failure this is modelled as
`none`. -/
def findLast (ax : Char) : List CodeLine → Option ℚ
  | [] => none
  | p :: rest =>
    match lookupD p.params ax with
    | some v =>
      match lookupG p.active_g_modal_groups 1 with
      | some g => if g ∈ motionCodes then some v else findLast ax rest
      | none => none
    | none => findLast ax rest

/-- `HoleBuilder.line_length` squared: the radicand
`(x2-x1)**2 + (y2-y1)**2` of `math.sqrt` (the square root itself only
enters theorem statements). -/
def line_length_sq (x1 y1 x2 y2 : ℚ) : ℚ := (x2 - x1) ^ 2 + (y2 - y1) ^ 2

/-- The hole test of `flag_holes` for a `G3` line: recover the pre-arc
cursor for each axis, compute the implied endpoint (explicit parameter, or
the carried-forward cursor value for an omitted axis) and flag the line as
a hole exactly when endpoint and cursor agree on both axes.  Returns
`(is_hole, endx, endy, lastx, lasty)`; `none` models the crash when a
cursor value cannot be recovered. -/
def holeTest (line : CodeLine) (prevs : List CodeLine) :
    Option (Bool × ℚ × ℚ × ℚ × ℚ) := do
  let lastx ← findLast 'X' prevs
  let lasty ← findLast 'Y' prevs
  let endx := (lookupD line.params 'X').getD lastx
  let endy := (lookupD line.params 'Y').getD lasty
  pure (decide (endx = lastx ∧ endy = lasty), endx, endy, lastx, lasty)

/-- The geometry computed for a flagged hole: centre from the I/J offsets
and the squared radius (`radius = line_length(centre, end)`;
`diameter = 2*fabs(radius)` appears in theorems as `2 * Real.sqrt`). -/
def holeGeometry (line : CodeLine) (endx endy : ℚ) : Option (ℚ × ℚ × ℚ) := do
  let arc_i ← lookupD line.params 'I'
  let arc_j ← lookupD line.params 'J'
  let centre_x := endx + arc_i
  let centre_y := endy + arc_j
  pure (centre_x, centre_y, line_length_sq centre_x centre_y endx endy)

/-! ### HiDef interpolator (`HiDefHole`) -/

/-- One row of the HiDef breakpoint table (`hidef_holes(...)` record). -/
structure HiDefRow where
  hole_size : ℚ
  leadin_radius : ℚ
  kerf : ℚ
  cut_height : ℚ
  speed1 : ℚ
  speed2 : ℚ
  speed2_distance : ℚ
  plasma_off_distance : ℚ
  over_cut : ℚ
  amps : ℚ
  deriving DecidableEq

/-- The attributes `HiDefHole.get_attribute` scales. -/
inductive HAttr where
  | leadinradius | kerf | cutheight | speed1 | speed2 | speed2dist
  | offdistance | overcut
  deriving DecidableEq

/-- The raw row value behind each attribute key. -/
def attrVal (r : HiDefRow) : HAttr → ℚ
  | .leadinradius => r.leadin_radius
  | .kerf => r.kerf
  | .cutheight => r.cut_height
  | .speed1 => r.speed1
  | .speed2 => r.speed2
  | .speed2dist => r.speed2_distance
  | .offdistance => r.plasma_off_distance
  | .overcut => r.over_cut

/-- The per-pair scale factor `HiDefHole.__init__` precomputes into
`scale_<attribute>` of the pair's upper row: the upper row's attribute
value over the difference of the pair's hole sizes. -/
def scaleOf (lower upper : HiDefRow) (a : HAttr) : ℚ :=
  attrVal upper a / (upper.hole_size - lower.hole_size)

/-- `HiDefHole.get_attribute`: walk the adjacent row pairs in order and,
at the first pair whose hole sizes bracket `holesize` inclusively, return
`holesize` times the precomputed scale factor; `none` (Python `None`) when
no pair brackets it. -/
def get_attribute : List HiDefRow → HAttr → ℚ → Option ℚ
  | lower :: upper :: rest, a, holesize =>
    if lower.hole_size ≤ holesize ∧ holesize ≤ upper.hole_size then
      some (holesize * scaleOf lower upper a)
    else get_attribute (upper :: rest) a holesize
  | _, _, _ => none

/-- The `hidef` flag of `flag_holes`: the table is nonempty and all eight
attributes interpolate to a value at the hole's diameter. -/
def hidefResolves (rows : List HiDefRow) (diameter : ℚ) : Bool :=
  decide (rows ≠ []) &&
    [HAttr.leadinradius, .kerf, .cutheight, .speed1, .speed2, .speed2dist,
     .offdistance, .overcut].all
      (fun a => (get_attribute rows a diameter).isSome)

/-! ### Strategy selection (`flag_holes` lines 1001-1130) -/

/-- The configuration values `flag_holes` samples from HAL, with the
unit conversions it applies at sampling time (`.../UNITS_PER_MM`).  The
`_raw` fields are the HAL pin values. -/
structure HoleCfg where
  thickness_ratio : ℚ
  max_hole_size_raw : ℚ
  leadin_radius_raw : ℚ
  kerf_width_raw : ℚ
  small_hole_detect : Bool
  small_hole_threshold_raw : ℚ
  unitsPerMM : ℚ
  deriving DecidableEq

/-- `max_hole_size` as sampled (already divided by `UNITS_PER_MM` once). -/
def max_hole_size (c : HoleCfg) : ℚ := c.max_hole_size_raw / c.unitsPerMM

/-- `leadin_radius` as sampled. -/
def leadin_radius_cfg (c : HoleCfg) : ℚ := c.leadin_radius_raw / c.unitsPerMM

/-- `kerf_width` as sampled. -/
def kerf_width_cfg (c : HoleCfg) : ℚ := c.kerf_width_raw / c.unitsPerMM

/-- `small_hole_size`: zero unless small-hole detection is enabled. -/
def small_hole_size (c : HoleCfg) : ℚ :=
  if c.small_hole_detect then c.small_hole_threshold_raw / c.unitsPerMM else 0

/-- The replacement strategy `flag_holes` chooses for a detected hole. -/
inductive HoleStrategy where
  /-- `plasma_mark` replacement. -/
  | markPulse
  /-- `plasma_hole` with the interpolated HiDef parameters. -/
  | hidefHole
  /-- `plasma_hole` with the configured parameters; carries the lead-in
  radius passed to the builder. -/
  | standardHole (leadin : ℚ)
  /-- `else` branch: `is_hole` cleared, builder discarded. -/
  | unmodified
  deriving DecidableEq

/-- The strategy dispatch of `flag_holes` for a detected hole, as a
function of the hole's diameter and radius, the active-process thickness
and the `hidef` flag.  Note the third tier compares the diameter against
`max_hole_size / UNITS_PER_MM`, although `max_hole_size` was already
divided by `UNITS_PER_MM` when sampled. -/
def selectStrategy (c : HoleCfg) (active_thickness diameter radius : ℚ)
    (hidef : Bool) : HoleStrategy :=
  if diameter < small_hole_size c ∧ c.small_hole_detect then .markPulse
  else if hidef then .hidefHole
  else if diameter ≤ active_thickness * c.thickness_ratio ∨
          diameter ≤ max_hole_size c / c.unitsPerMM then
    .standardHole
      (if leadin_radius_cfg c = 0 then
        radius - radius / 4 - kerf_width_cfg c / 2
      else leadin_radius_cfg c)
  else .unmodified

/-! ### Hole generator (`HoleBuilder.plasma_mark` / `plasma_hole`)

The builder reads the feed percentages from HAL, the arc-mode and
cutter-compensation state from the line's modal snapshot (groups 4 and 7,
both seeded before parsing so always present) and the active feed rate
from the parent.  These enter as parameters.  `math.pi`, `math.cos` and
`math.sin` are transcendental; they enter as the parameters `piQ`, `cosF`
and `sinF` (no verified claim depends on their values: every path a
theorem exercises leaves them unused). -/

/-- `HoleBuilder.plasma_mark`. -/
def plasma_mark (feed_rate x y time : ℚ) : List (Option GCode) :=
  [some (.comment "---- Marking Start ----"),
   some (.feed feed_rate),
   some (.lineMove true x y),
   some (.cutOnOff true),
   some (.lineMove false (x + 1 / 1000) y),
   some .markingVoltageWait,
   some (.dwell time),
   some (.cutOnOff false),
   some (.comment "---- Marking End ----")]

/-- The values the hole-body sector loop of `plasma_hole` closes over. -/
structure SectorEnv where
  arc1_feed : ℚ
  arc2_feed : ℚ
  arc3_feed : ℚ
  r : ℚ
  cx : ℚ
  cy : ℚ
  x : ℚ
  y : ℚ
  full_circle : ℚ
  degs90 : ℚ
  piQ : ℚ
  cosF : ℚ → ℚ
  sinF : ℚ → ℚ

/-- The `for sang in split_angles` loop of `plasma_hole`: one
counter-clockwise arc per segment, with the first and second segments at
the first and second arc feeds and segment index 2 turning the torch off
before continuing at the third arc feed.  Returns the elements and the
final torch state. -/
def sectorLoop (env : SectorEnv) :
    List ℚ → ℕ → Bool → List (Option GCode) × Bool
  | [], _, torch => ([], torch)
  | sang :: rest, sector_num, torch =>
    let end_angle := sang
    let ex := env.cx + env.r * env.cosF (end_angle + env.degs90)
    let ey := env.cy + env.r * env.sinF (end_angle + env.degs90)
    let (end_x, end_y) :=
      if sang = env.full_circle ∨ sang = 0 then (env.x, env.y + env.r)
      else (ex, ey)
    let cmts :=
      [create_debug_comment ("Settings: angle = " ++ toString sang ++
         " end_angle " ++ toString end_angle ++ " radians " ++
         toString (end_angle * (180 / env.piQ)) ++ " degrees"),
       create_debug_comment ("Arc length = " ++ toString (env.r * sang)),
       some (.comment ("Sector number: " ++ toString sector_num))]
    let (feedPart, torch') :=
      if sector_num = 0 then ([some (GCode.feed env.arc1_feed)], torch)
      else if sector_num = 1 then ([some (GCode.feed env.arc2_feed)], torch)
      else if sector_num = 2 then
        ([some (GCode.cutOnOff false), some (GCode.feed env.arc3_feed)], false)
      else ([], torch)
    let (restEls, torchF) := sectorLoop env rest (sector_num + 1) torch'
    (cmts ++ feedPart ++ [some (.ccwArc end_x end_y env.cx env.cy)] ++ restEls,
     torchF)

/-- `HoleBuilder.plasma_hole`: the full element list the smart-hole
generator builds for a hole at `(x, y)` of diameter `d`. -/
def plasma_hole (arc1pct arc2pct arc3pct leadinpct piQ : ℚ)
    (cosF sinF : ℚ → ℚ) (feed_rate : ℚ) (grp4 grp7 : String)
    (x y d kerf leadin_radius : ℚ) (splits : List ℚ) (hidef : Bool) :
    List (Option GCode) :=
  let arc1_feed := feed_rate * arc1pct / 100
  let arc2_feed := feed_rate * arc2pct / 100
  let arc3_feed := feed_rate * arc3pct / 100
  let leadin_feed := feed_rate * leadinpct / 100
  let g40 : Bool := grp7 = "G40"
  let r := d / 2
  let kc := kerf / 2
  -- kerf larger than hole: only the explanatory comment is emitted
  if kc > r then
    [some (.comment "1/2 Kerf > Hole Radius.  Smart Hole processing skipped.")]
  else
    let full_circle := piQ * 2
    let degs90 := piQ / 2
    let split_angles := splits.map (fun spt => spt / r)
    let r := if g40 then r else r - kc
    let leadin_radius := if g40 then leadin_radius else leadin_radius - kc
    let arc_x0 := x
    let arc_y0 := y + r
    let pre :=
      (if grp4 = "G91.1" then [some GCode.absoluteArc] else []) ++
      (if hidef then [some (GCode.comment "---- HiDef Hole ----")] else []) ++
      [create_debug_comment ("Hole Center x=" ++ toString x ++ " y=" ++
         toString y ++ " r=" ++ toString r ++ " leadin_r=" ++
         toString leadin_radius),
       create_debug_comment ("First point on hole: x=" ++ toString arc_x0 ++
         " y=" ++ toString arc_y0),
       create_debug_comment "Leadin..."]
    let centre_to_leadin_diam_gap := |arc_y0 - 2 * leadin_radius - y|
    let header := [some (GCode.feed leadin_feed), some GCode.thcOffSynch]
    let leadin :=
      if leadin_radius < 0 ∨ leadin_radius ≥ r - kc then
        -- straight leadin from the hole centre
        [create_debug_comment "too small",
         some (.lineMove true x y), some .kerfOff, some (.cutOnOff true),
         some (.lineMove false arc_x0 arc_y0)]
      else if leadin_radius ≤ r / 2 then
        -- half-circle leadin
        [create_debug_comment "Half circle radius",
         create_debug_comment ("Half circle radius. Centre-to-Leadin-Gap=" ++
           toString centre_to_leadin_diam_gap)] ++
        (if centre_to_leadin_diam_gap < kerf then
          [create_debug_comment "... single arc",
           some (.lineMove true x y), some .kerfOff, some (.cutOnOff true),
           some (.lineMove false x (arc_y0 - 2 * leadin_radius)),
           some (.ccwArc arc_x0 arc_y0 x (arc_y0 - leadin_radius))]
        else
          [create_debug_comment "... double back arc",
           some (.lineMove true x y), some .kerfOff, some (.cutOnOff true),
           some (.cwArc x (y + centre_to_leadin_diam_gap) x
             (y + centre_to_leadin_diam_gap / 2)),
           some (.ccwArc arc_x0 arc_y0 x (arc_y0 - leadin_radius))])
      else
        -- combination leadin
        [create_debug_comment "Greater then Half circle radius",
         create_debug_comment ("Half circle radius. Centre-to-Leadin-Gap=" ++
           toString centre_to_leadin_diam_gap)] ++
        (if centre_to_leadin_diam_gap < kerf then
          [create_debug_comment "... single arc",
           some (.lineMove true x y), some .kerfOff, some (.cutOnOff true),
           some (.lineMove false x (y - centre_to_leadin_diam_gap)),
           some (.ccwArc arc_x0 arc_y0 x (arc_y0 - leadin_radius))]
        else
          [create_debug_comment "... double back arc",
           some (.lineMove true x y), some .kerfOff, some (.cutOnOff true),
           some (.ccwArc x (y - centre_to_leadin_diam_gap) x
             (y - centre_to_leadin_diam_gap / 2)),
           some (.ccwArc arc_x0 arc_y0 x (arc_y0 - leadin_radius))])
    let cx := x
    let cy := y
    let env : SectorEnv :=
      ⟨arc1_feed, arc2_feed, arc3_feed, r, cx, cy, x, y, full_circle, degs90,
       piQ, cosF, sinF⟩
    let (body, torch_on) :=
      if split_angles.length > 0 then sectorLoop env split_angles 0 true
      else
        -- four 90-degree arcs, nothing special
        ([some (GCode.ccwArc (x - r) y x y), some (.ccwArc x (y - r) x y),
          some (.ccwArc (x + r) y x y), some (.ccwArc x (y + r) x y)], true)
    let closing :=
      (if torch_on then [some (GCode.cutOnOff false)] else []) ++
      [some GCode.thcOnSynch, some (GCode.feed feed_rate)] ++
      (if grp4 = "G91.1" then [some GCode.relativeArc] else [])
    pre ++ header ++ leadin ++ [some (GCode.comment "Hole...")] ++ body ++
      closing

/-! ### Element classification and concrete fixtures -/

/-- Motion elements (rapid/feed moves and arcs). -/
def isMotionEl : GCode → Bool
  | .ccwArc _ _ _ _ => true
  | .cwArc _ _ _ _ => true
  | .lineMove _ _ _ => true
  | _ => false

/-- Torch on/off elements. -/
def isTorchEl : GCode → Bool
  | .cutOnOff _ => true
  | _ => false

/-- Feed-set elements. -/
def isFeedEl : GCode → Bool
  | .feed _ => true
  | _ => false

/-- Arc elements. -/
def isArcEl : GCode → Bool
  | .ccwArc _ _ _ _ => true
  | .cwArc _ _ _ _ => true
  | _ => false

/-- Comment elements. -/
def isCommentEl : GCode → Bool
  | .comment _ => true
  | .debugComment _ => true
  | _ => false

/-- A concrete process database for witnesses: tool 1 resolves to a record
with feed 350, thickness 3, machine 2, thickness id 4, material id 7; all
other ids are unknown. -/
def dbEx : ℤ → Option CutProcess :=
  fun n => if n = 1 then some ⟨350, 3, 2, 4, 7⟩ else none

/-! ### Helper lemmas -/

unseal Rat.mul Rat.add Rat.sub Rat.inv Rat.ofScientific

/-- `parse_inline_comment` only sets the comment field. -/
theorem parse_inline_comment_eq (cl : CodeLine) :
    ∃ cmt, parse_inline_comment cl = { cl with comment := cmt } := by
  unfold parse_inline_comment
  cases h : findInline (cl.raw.data.drop 1) with
  | none => exact ⟨"", rfl⟩
  | some pr => cases pr with | mk c rest => exact ⟨_, rfl⟩

/-- An empty token updates no modal group. -/
theorem set_active_g_modal_empty (grps : List (ℕ × String)) :
    set_active_g_modal grps "" = grps := by
  have h : G_MODAL_GROUPS.find? (fun p => decide ("" ∈ p.2)) = none := by decide
  simp [set_active_g_modal, h]

/-- The parameter scanner is the identity (and finds nothing new) on text
without any of its letters. -/
theorem extractParamsGo_no_letter (letters : List Char) :
    ∀ (fuel : ℕ) (l : List Char) (acc : List (Char × ℚ)) (b : Bool),
      (∀ c ∈ l, c ∉ letters) →
      extractParamsGo letters fuel l acc b = some (acc, b)
  | 0, _, _, _, _ => rfl
  | _ + 1, [], _, _, _ => rfl
  | fuel + 1, c :: rest, acc, b, h => by
    rw [extractParamsGo, if_neg (h c (List.mem_cons_self c rest))]
    exact extractParamsGo_no_letter letters fuel rest acc b
      (fun c' hc' => h c' (List.mem_cons_of_mem _ hc'))

/-- When the parameter scanner succeeds, its `found` flag records exactly
whether the text contained one of its letters (given enough fuel). -/
theorem extractParamsGo_found (letters : List Char) :
    ∀ (fuel : ℕ) (l : List Char) (acc : List (Char × ℚ)) (b : Bool)
      (ps : List (Char × ℚ)) (fd : Bool), l.length ≤ fuel →
      extractParamsGo letters fuel l acc b = some (ps, fd) →
      fd = (b || l.any (fun c => decide (c ∈ letters)))
  | 0, l, _, b, _, _, hl, h => by
    cases l with
    | nil => cases h; simp
    | cons c rest => simp at hl
  | _ + 1, [], _, b, _, _, _, h => by cases h; simp
  | fuel + 1, c :: rest, acc, b, ps, fd, hl, h => by
    rw [extractParamsGo] at h
    by_cases hc : c ∈ letters
    · rw [if_pos hc] at h
      by_cases hrun : rest.takeWhile isValC = []
      · rw [if_pos hrun] at h
        have := extractParamsGo_found letters fuel rest acc true ps fd
          (by simp only [List.length_cons] at hl; omega) h
        simp [this, hc]
      · rw [if_neg hrun] at h
        cases hfl : parseFloatPy ⟨rest.takeWhile isValC⟩ with
        | none => rw [hfl] at h; cases h
        | some v =>
          rw [hfl] at h
          have hlen : (rest.drop (rest.takeWhile isValC).length).length ≤ fuel := by
            have h1 : rest.length ≤ fuel := by simp only [List.length_cons] at hl; omega
            have h2 := List.length_drop (rest.takeWhile isValC).length rest
            omega
          have := extractParamsGo_found letters fuel _ _ true ps fd hlen h
          simp [this, hc]
    · rw [if_neg hc] at h
      have := extractParamsGo_found letters fuel rest acc b ps fd
        (by simp only [List.length_cons] at hl; omega) h
      simp [this, hc]

/-- Both branches of the database lookup of `parse_toolchange` leave the
modal groups and the line's token untouched. -/
theorem toolchangeLookup_inv (db : ℤ → Option CutProcess) (tool : ℤ)
    (cl : CodeLine) (st : PState) :
    (toolchangeLookup db tool cl st).2.grps = st.grps ∧
    (toolchangeLookup db tool cl st).1.token = cl.token := by
  unfold toolchangeLookup
  cases db tool <;> simp

/-- The combo tool-change path preserves the modal groups and the line's
token. -/
theorem parse_toolchange_combo_inv (db : ℤ → Option CutProcess)
    (cl : CodeLine) (st : PState) (p : CodeLine × PState)
    (h : parse_toolchange_combo db cl st = some p) :
    p.1.token = cl.token ∧ p.2.grps = st.grps := by
  unfold parse_toolchange_combo at h
  cases hF : findallTM6 (trimS (upperS (strip_inline_comment cl.raw))) with
  | nil => rw [hF] at h; cases h
  | cons f0 fs =>
    rw [hF] at h
    replace h :
        (do
          let t ← afterFirstL ['T'] f0.data
          let tool ← parseIntPy ⟨t⟩
          pure (toolchangeLookup db tool { cl with type := some .PASSTHROUGH } st) :
          Option (CodeLine × PState)) = some p := h
    cases hA : afterFirstL ['T'] f0.data with
    | none => simp only [hA, Option.bind_eq_bind, Option.none_bind] at h; cases h
    | some t =>
      simp only [hA, Option.bind_eq_bind, Option.some_bind] at h
      cases hB : parseIntPy ⟨t⟩ with
      | none => simp only [hB, Option.none_bind] at h; cases h
      | some tool =>
        simp only [hB, Option.some_bind, Option.pure_def, Option.some.injEq] at h
        have h2 := toolchangeLookup_inv db tool { cl with type := some .PASSTHROUGH } st
        rw [← h]
        exact ⟨h2.2, h2.1⟩

/-! ### C3: HiDef lookup -/

/-- The spec's description of the lookup (§4.5), stated independently of
the implementation: take the first adjacent row pair whose hole sizes
bracket the target inclusively and return the target times that pair's
scale factor (upper row's attribute value over the pair's size
difference); report nothing when no pair brackets the target. -/
def lookupBySpec (rows : List HiDefRow) (a : HAttr) (s : ℚ) : Option ℚ :=
  ((rows.zip rows.tail).find?
      (fun p => decide (p.1.hole_size ≤ s ∧ s ≤ p.2.hole_size))).map
    (fun p => s * (attrVal p.2 a / (p.2.hole_size - p.1.hole_size)))

/-- `get_attribute` computes exactly the spec's lookup. -/
theorem get_attribute_eq_spec :
    ∀ (rows : List HiDefRow) (a : HAttr) (s : ℚ),
      get_attribute rows a s = lookupBySpec rows a s
  | [], _, _ => rfl
  | [_], _, _ => rfl
  | r0 :: r1 :: rest, a, s => by
    have ih := get_attribute_eq_spec (r1 :: rest) a s
    by_cases h : r0.hole_size ≤ s ∧ s ≤ r1.hole_size
    · simp [get_attribute, lookupBySpec, h, scaleOf]
    · simp only [get_attribute, if_neg h, ih, lookupBySpec, List.zip_cons_cons,
        List.tail_cons, List.find?]
      simp [h, List.zip]

/-- The two-breakpoint table of the spec's worked example: hole sizes 5
and 10 with kerf values 1 and 2 (the other attributes are irrelevant to
the example). -/
def hidefRow5 : HiDefRow := ⟨5, 0, 1, 0, 0, 0, 0, 0, 0, 0⟩

/-- Second row of the worked example. -/
def hidefRow10 : HiDefRow := ⟨10, 0, 2, 0, 0, 0, 0, 0, 0, 0⟩

/-- C3: the HiDef lookup returns targetSize times the scale factor of the
first adjacent breakpoint pair whose hole sizes bracket targetSize
inclusively, where the pair's scale factor is the upper row's attribute
value divided by the difference of the pair's hole sizes; it reports no
value whenever no pair brackets targetSize (never extrapolating); and on
the table [(size 5, kerf 1), (size 10, kerf 2)] the kerf lookup at 7.5
yields 7.5 × (2/5) = 3. -/
theorem hidef_lookup_spec :
    (∀ (rows : List HiDefRow) (a : HAttr) (s : ℚ),
      get_attribute rows a s = lookupBySpec rows a s)
    ∧ (∀ (rows : List HiDefRow) (a : HAttr) (s : ℚ),
        (rows.zip rows.tail).find?
            (fun p => decide (p.1.hole_size ≤ s ∧ s ≤ p.2.hole_size)) = none →
        get_attribute rows a s = none)
    ∧ get_attribute [hidefRow5, hidefRow10] .kerf (15 / 2) = some 3
    ∧ (15 : ℚ) / 2 * (2 / 5) = 3 := by
  refine ⟨get_attribute_eq_spec, ?_, ?_, by decide⟩
  · intro rows a s h
    rw [get_attribute_eq_spec, lookupBySpec, h, Option.map_none']
  · rw [get_attribute_eq_spec]
    decide

/-- C3 witness: no adjacent pair of the example table brackets 20, so the
lookup reports no value (it never extrapolates). -/
theorem hidef_lookup_spec_witness :
    get_attribute [hidefRow5, hidefRow10] .kerf 20 = none :=
  hidef_lookup_spec.2.1 [hidefRow5, hidefRow10] .kerf 20 (by decide)

/-! ### C4: tool-change resolution -/

/-- C4 (code evidence): for a valid standalone tool line `T1` the database
record's fields become the active process context and the output line is
the reconstructed `T1` with no error comment; for the unknown id `T99` the
raw text is rewritten to the error comment, but the line keeps its
`TOOLCHANGE` classification, so the serializer reconstructs and emits
`T99` — a bare tool-change command, not a comment (it does not start with
the comment delimiter) — and no active process is recorded. -/
theorem tool_change_resolution :
    (((parseStep dbEx {} "T1").map fun p =>
        (dumpLines (fun _ => "") (fun _ => "") p.1, p.1.raw, p.1.cutchart_id)) =
      some (["T1"], "T1", some 1))
    ∧ (((parseStep dbEx {} "T1").map fun p =>
        (p.2.active_cutchart, p.2.active_feedrate, p.2.active_thickness)) =
      some (some 1, some 350, some 3))
    ∧ (((parseStep dbEx {} "T1").map fun p =>
        (p.2.active_thicknessid, p.2.active_materialid, p.2.active_machineid)) =
      some (some 4, some 7, some 2))
    ∧ (((parseStep dbEx {} "T99").map fun p =>
        (dumpLines (fun _ => "") (fun _ => "") p.1, p.1.raw)) =
      some (["T99"],
        "; ERROR: Invalid Cutchart ID in Tx. Check CAM Tools: T99"))
    ∧ (((parseStep dbEx {} "T99").map fun p =>
        (p.1.type, p.1.cutchart_id, p.2.active_cutchart, p.2.active_feedrate)) =
      some (some .TOOLCHANGE, none, none, none))
    ∧ startsWithS "T99" ";" = false := by
  refine ⟨by decide, by decide, by decide, by decide, by decide, by decide⟩

/-! ### C6: feed-rate handling -/

/-- C6 (amended): the literal value of a single-command feed-rate line is
recorded only while no process is active; as soon as a process is active,
`parse_feedrate` overwrites the parsed literal with the active process's
feed rate. -/
theorem feedrate_substitution (cl : CodeLine) (st : PState) (t : List Char)
    (lit : ℚ)
    (ht : afterFirstL ['F'] (strip_inline_comment cl.raw).data = some t)
    (hlit : parseFloatPy ⟨t⟩ = some lit) :
    (st.active_feedrate = none →
      parse_feedrate cl st = some { cl with command := .mk 'F' (.float lit) })
    ∧ (∀ f, st.active_feedrate = some f →
      parse_feedrate cl st = some { cl with command := .mk 'F' (.float f) }) := by
  constructor
  · intro h
    simp only [parse_feedrate, ht, hlit, h, Option.bind_eq_bind,
      Option.some_bind, Option.pure_def]
  · intro f h
    simp only [parse_feedrate, ht, hlit, h, Option.bind_eq_bind,
      Option.some_bind, Option.pure_def]

/-- C6 witness: on `F200` with no active process the literal 200 is
recorded; with an active process at feed 300 the command becomes `F300`. -/
theorem feedrate_substitution_witness :
    parse_feedrate { raw := "F200" } {} =
      some { raw := "F200", command := .mk 'F' (.float 200) }
    ∧ parse_feedrate { raw := "F200" } { active_feedrate := some 300 } =
      some { raw := "F200", command := .mk 'F' (.float 300) } := by
  constructor
  · exact (feedrate_substitution { raw := "F200" } {} "200".data 200
      (by decide) (by decide)).1 rfl
  · exact (feedrate_substitution { raw := "F200" }
      { active_feedrate := some 300 } "200".data 200
      (by decide) (by decide)).2 300 rfl

/-- C6 counterexample: the claim says a literal feed line records its
literal number, but with an active process (feed 300) the classifier
records 300 for the line `F200`, not 200. -/
theorem literal_feed_override_cex :
    ((parseStep dbEx { active_feedrate := some 300 } "F200").map
      fun p => p.1.command) = some (.mk 'F' (.float 300))
    ∧ ((parseStep dbEx { active_feedrate := some 300 } "F200").map
      fun p => p.1.command) ≠ some (.mk 'F' (.float 200)) := by
  refine ⟨by decide, by decide⟩

/-! ### C5: degenerate hole guard -/

/-- C5 (amended): whenever the hole generator is invoked with half the
kerf width strictly greater than the hole radius, its output is exactly
the one explanatory comment — no motion, torch, feed or arc element. -/
theorem degenerate_hole_guard (a1 a2 a3 lp piQ : ℚ) (cosF sinF : ℚ → ℚ)
    (fr : ℚ) (g4 g7 : String) (x y d kerf lr : ℚ) (splits : List ℚ)
    (hidef : Bool) (h : kerf / 2 > d / 2) :
    plasma_hole a1 a2 a3 lp piQ cosF sinF fr g4 g7 x y d kerf lr splits hidef
      = [some (.comment
          "1/2 Kerf > Hole Radius.  Smart Hole processing skipped.")]
    ∧ ∀ g ∈ (plasma_hole a1 a2 a3 lp piQ cosF sinF fr g4 g7 x y d kerf lr
        splits hidef).filterMap id,
      isCommentEl g = true ∧ isMotionEl g = false ∧ isTorchEl g = false ∧
        isFeedEl g = false ∧ isArcEl g = false := by
  have he : plasma_hole a1 a2 a3 lp piQ cosF sinF fr g4 g7 x y d kerf lr
      splits hidef = [some (.comment
        "1/2 Kerf > Hole Radius.  Smart Hole processing skipped.")] := by
    unfold plasma_hole
    rw [if_pos h]
  refine ⟨he, ?_⟩
  rw [he]
  intro g hg
  simp only [List.filterMap_cons, List.filterMap_nil, id_eq,
    List.mem_singleton] at hg
  subst hg
  exact ⟨rfl, rfl, rfl, rfl, rfl⟩

/-- C5 witness: at kerf 3 and diameter 2 (half-kerf 1.5 > radius 1) the
generator emits only the comment. -/
theorem degenerate_hole_guard_witness :
    plasma_hole 100 100 100 100 0 (fun _ => 0) (fun _ => 0) 60 "G90.1" "G40"
        0 0 2 3 0 [] false
      = [some (.comment
          "1/2 Kerf > Hole Radius.  Smart Hole processing skipped.")] :=
  (degenerate_hole_guard 100 100 100 100 0 (fun _ => 0) (fun _ => 0) 60
    "G90.1" "G40" 0 0 2 3 0 [] false (by decide)).1

/-- C5 counterexample: at kerf 2 and diameter 2 half-kerf equals the
radius, a case the claim includes, yet the generator emits motion (the
guard uses a strict comparison). -/
theorem degenerate_hole_equality_cex :
    ((plasma_hole 100 100 100 100 0 (fun _ => 0) (fun _ => 0) 60 "G90.1"
        "G40" 0 0 2 2 0 [] false).filterMap id).any isMotionEl = true
    ∧ ((2 : ℚ) / 2 ≥ (2 : ℚ) / 2) := by
  refine ⟨by decide, le_refl _⟩

/-! ### C2: strategy selection -/

/-- The spec's wording of the standard-tier size test: diameter within the
active thickness times the thickness ratio, or within the configured
max-hole-size (the sampled, once-converted value). -/
def specStandardSizeCond (c : HoleCfg) (active_thickness diameter : ℚ) :
    Prop :=
  diameter ≤ active_thickness * c.thickness_ratio ∨
    diameter ≤ max_hole_size c

/-- C2 counterexample: on an imperial machine (units-per-mm 25.4 = 127/5)
with max-hole-size sampled as 1 (raw 127/5), a detected hole of diameter
1/2 satisfies the claim's standard-tier test (and neither the mark-pulse
nor the HiDef tier applies), yet the code leaves the line unmodified: the
dispatch divides the already-converted max-hole-size by the conversion
factor a second time. -/
theorem max_hole_size_double_division_cex :
    specStandardSizeCond
      ⟨0, 127 / 5, 0, 0, false, 0, 127 / 5⟩ 1 (1 / 2)
    ∧ ¬((1 : ℚ) / 2 <
          small_hole_size ⟨0, 127 / 5, 0, 0, false, 0, 127 / 5⟩ ∧
        (⟨0, 127 / 5, 0, 0, false, 0, 127 / 5⟩ : HoleCfg).small_hole_detect)
    ∧ hidefResolves [] (1 / 2) = false
    ∧ selectStrategy ⟨0, 127 / 5, 0, 0, false, 0, 127 / 5⟩ 1 (1 / 2) (1 / 4)
        (hidefResolves [] (1 / 2)) = .unmodified := by
  refine ⟨?_, by decide, by decide, by decide⟩
  right
  decide

/-- C2 (amended): the strategy dispatch follows the fixed priority
mark-pulse, then HiDef, then standard smart-hole — but the standard tier's
second disjunct compares the diameter against the configured max-hole-size
divided by the units-per-mm factor a second time (on metric machines,
units-per-mm 1, this equals the configured value); the standard tier's
lead-in radius is the configured value, or radius − radius/4 − kerf/2 when
the configured value is 0; any hole passing no tier is left unmodified.
The HiDef tier fires exactly when the table is nonempty and all eight
attributes interpolate. -/
theorem strategy_selection (c : HoleCfg) (θ d r : ℚ) (rows : List HiDefRow) :
    (selectStrategy c θ d r (hidefResolves rows d) = .markPulse ↔
      d < small_hole_size c ∧ c.small_hole_detect = true)
    ∧ (hidefResolves rows d = true ↔
        rows ≠ [] ∧ ∀ a : HAttr, (get_attribute rows a d).isSome = true)
    ∧ (¬(d < small_hole_size c ∧ c.small_hole_detect = true) →
        (hidefResolves rows d = true →
          selectStrategy c θ d r (hidefResolves rows d) = .hidefHole)
        ∧ (hidefResolves rows d = false →
            ((d ≤ θ * c.thickness_ratio ∨
                d ≤ max_hole_size c / c.unitsPerMM) →
              selectStrategy c θ d r (hidefResolves rows d) =
                .standardHole (if leadin_radius_cfg c = 0 then
                  r - r / 4 - kerf_width_cfg c / 2
                else leadin_radius_cfg c))
            ∧ (¬(d ≤ θ * c.thickness_ratio ∨
                  d ≤ max_hole_size c / c.unitsPerMM) →
              selectStrategy c θ d r (hidefResolves rows d) =
                .unmodified))) := by
  refine ⟨?_, ?_, ?_⟩
  · unfold selectStrategy
    split_ifs <;> simp_all
  · constructor
    · intro h
      unfold hidefResolves at h
      simp only [Bool.and_eq_true, decide_eq_true_eq, List.all_eq_true] at h
      refine ⟨h.1, fun a => h.2 a ?_⟩
      cases a <;> simp
    · intro ⟨h1, h2⟩
      unfold hidefResolves
      simp only [Bool.and_eq_true, decide_eq_true_eq, List.all_eq_true]
      exact ⟨h1, fun a _ => h2 a⟩
  · intro hmark
    constructor
    · intro hh
      unfold selectStrategy
      rw [if_neg (by simpa using hmark), hh, if_pos rfl]
    · intro hh
      constructor
      · intro hstd
        unfold selectStrategy
        rw [if_neg (by simpa using hmark), hh]
        simp only [Bool.false_eq_true, if_false]
        rw [if_pos hstd]
      · intro hstd
        unfold selectStrategy
        rw [if_neg (by simpa using hmark), hh]
        simp only [Bool.false_eq_true, if_false]
        rw [if_neg hstd]

/-- C2 witness: a metric configuration (units-per-mm 1, ratio 5,
max-hole-size 30, lead-in radius unset, kerf 2), thickness 3, a detected
hole of diameter 12 and radius 6, no HiDef rows: the standard tier fires
with lead-in radius 6 − 6/4 − 1 = 7/2. -/
theorem strategy_selection_witness :
    selectStrategy ⟨5, 30, 0, 2, false, 0, 1⟩ 3 12 6 (hidefResolves [] 12) =
      .standardHole (7 / 2) := by
  have h := (((strategy_selection ⟨5, 30, 0, 2, false, 0, 1⟩ 3 12 6 []).2.2
    (by decide)).2 (by decide)).1 (by right; decide)
  rw [h]
  decide

/-! ### C8: passthrough round-trip -/

/-- C8 (amended): an input line that matches no prefix pattern, has at
most one recognizable command token and contains no X or Y letter is
classified passthrough and serialized as the input stripped of leading and
trailing whitespace. -/
theorem passthrough_roundtrip (db : ℤ → Option CutProcess) (st : PState)
    (s : String) (fmtQ : ℚ → String) (fmtE : GCode → String)
    (hmulti : (multiCodes (trimS (upperS (trimS s)))).length ≤ 1)
    (hpref : TOKENS.find? (fun t => startsWithS (upperS (trimS s)) t.1) = none)
    (hxy : ∀ c ∈ trimL (upperS (trimS s)).data, c ∉ (['X', 'Y'] : List Char)) :
    parseStep db st s = some ({ raw := trimS s,
                                type := some LineType.PASSTHROUGH,
                                active_g_modal_groups := st.grps }, st)
    ∧ dumpLines fmtQ fmtE { raw := trimS s,
                            type := some LineType.PASSTHROUGH,
                            active_g_modal_groups := st.grps } = [trimS s] := by
  have hm : ¬(multiCodes (trimS (upperS (trimS s)))).length > 1 := by omega
  have hx : extractParams ['X', 'Y'] (trimL (upperS (trimS s)).data) [] false
      = some ([], false) :=
    extractParamsGo_no_letter ['X', 'Y'] _ _ [] false hxy
  constructor
  · unfold parseStep mkCodeLine
    rw [if_neg hm, hpref]
    simp only [parse_XY_line, hx, Option.bind_eq_bind, Option.some_bind,
      Option.pure_def, Option.map_some', Bool.false_eq_true, if_false,
      set_active_g_modal_empty]
  · simp [dumpLines]

/-- C8 witness: the line `  Q7` (leading whitespace, no recognizable
pattern, no axis words) round-trips as its stripped text `Q7`. -/
theorem passthrough_roundtrip_witness :
    parseStep dbEx {} "  Q7" = some ({ raw := trimS "  Q7",
                                       type := some LineType.PASSTHROUGH,
                                       active_g_modal_groups :=
                                         ({} : PState).grps }, {})
    ∧ dumpLines (fun _ => "") (fun _ => "")
        { raw := trimS "  Q7",
          type := some LineType.PASSTHROUGH,
          active_g_modal_groups := ({} : PState).grps } = [trimS "  Q7"] :=
  passthrough_roundtrip dbEx {} "  Q7" (fun _ => "") (fun _ => "")
    (by decide) (by decide) (by decide)

/-- C8 counterexample: the claim allows the output to differ from the
input only in trailing whitespace, but the line `  Q7` (which has no
trailing whitespace at all) is emitted as `Q7`: leading whitespace is
stripped too. -/
theorem passthrough_leading_ws_cex :
    ((parseStep dbEx {} "  Q7").map fun p =>
      dumpLines (fun _ => "") (fun _ => "") p.1) = some ["Q7"]
    ∧ ⟨trimRightL "  Q7".data⟩ = "  Q7"
    ∧ "Q7" ≠ "  Q7" := by
  refine ⟨by decide, by decide, by decide⟩

/-! ### C9: multi-command lines and the modal state -/

/-- C9: a line with more than one recognizable command token leaves every
modal group exactly as it was (its token field stays empty, so the modal
tracker is fed nothing), and the snapshot saved into the line equals the
modal state as of the previous line. -/
theorem multi_command_modal_invariant (db : ℤ → Option CutProcess)
    (st : PState) (s : String) (cl : CodeLine) (st' : PState)
    (hmulti : (multiCodes (trimS (upperS (trimS s)))).length > 1)
    (hstep : parseStep db st s = some (cl, st')) :
    st'.grps = st.grps ∧ cl.active_g_modal_groups = st.grps := by
  unfold parseStep mkCodeLine at hstep
  rw [if_pos hmulti] at hstep
  by_cases hc : (findallTM6 (trimS (upperS (trimS s)))).length = 2
  · rw [if_pos hc] at hstep
    cases hcombo : parse_toolchange_combo db
        (if ((multiCodes (trimS (upperS (trimS s)))).filter
              (fun c => decide (c ∈ compCodes))).length > 0 then
          { raw := trimS s, compError := true,
            type := some LineType.REMOVE,
            stderr_count := ((multiCodes (trimS (upperS (trimS s)))).filter
              (fun c => decide (c ∈ compCodes))).length }
        else { raw := trimS s, type := some LineType.PASSTHROUGH }) st with
    | none => rw [hcombo] at hstep; cases hstep
    | some p =>
      rw [hcombo] at hstep
      have hinv := parse_toolchange_combo_inv db _ st p hcombo
      have htok : p.1.token = "" := by
        rw [hinv.1]; split <;> rfl
      simp only [Option.map_some', Option.some.injEq] at hstep
      have h2 := congrArg Prod.snd hstep
      have h1 := congrArg Prod.fst hstep
      simp only at h1 h2
      rw [← h2, ← h1]
      simp only [htok, set_active_g_modal_empty, hinv.2]
      exact ⟨trivial, trivial⟩
  · rw [if_neg hc] at hstep
    simp only [Option.map_some', Option.some.injEq] at hstep
    have h2 := congrArg Prod.snd hstep
    have h1 := congrArg Prod.fst hstep
    simp only at h1 h2
    have htok : (if ((multiCodes (trimS (upperS (trimS s)))).filter
          (fun c => decide (c ∈ compCodes))).length > 0 then
        ({ raw := trimS s, compError := true,
           type := some LineType.REMOVE,
           stderr_count := ((multiCodes (trimS (upperS (trimS s)))).filter
             (fun c => decide (c ∈ compCodes))).length } : CodeLine)
      else { raw := trimS s, type := some LineType.PASSTHROUGH }).token
        = "" := by
      split <;> rfl
    rw [← h2, ← h1]
    simp only [htok, set_active_g_modal_empty]
    exact ⟨trivial, trivial⟩

/-- C9 witness: the preamble line `G21 G90` holds two group-changing
codes, yet after it the modal groups are still only the seeded arc-mode
and cutter-compensation defaults, and that is also its snapshot. -/
theorem multi_command_modal_invariant_witness :
    ((parseStep dbEx {} "G21 G90").map fun p =>
      (p.1.active_g_modal_groups, p.2.grps)) = some (initGrps, initGrps) := by
  cases h : parseStep dbEx {} "G21 G90" with
  | none => exact absurd h (by decide)
  | some p =>
    have h2 := multi_command_modal_invariant dbEx {} "G21 G90" p.1 p.2
      (by decide) (by rw [h])
    simp only [Option.map_some', Option.some.injEq]
    exact Prod.ext h2.2 h2.1

/-! ### C10: bare-XY reclassification -/

/-- C10: an otherwise-unmatched passthrough line whose uppercased text
contains an X or Y letter anywhere is reclassified as a bare-XY line; the
serializer then rebuilds it purely from the extracted numeric X/Y
parameters (no command, no captured comment), and with no numeric axis
value at all the emitted line is empty — the original text is lost. -/
theorem bare_xy_reclassify (db : ℤ → Option CutProcess) (st : PState)
    (s : String) (fmtQ : ℚ → String) (fmtE : GCode → String)
    (ps : List (Char × ℚ)) (fd : Bool)
    (hmulti : (multiCodes (trimS (upperS (trimS s)))).length ≤ 1)
    (hpref : TOKENS.find? (fun t => startsWithS (upperS (trimS s)) t.1) = none)
    (hany : (trimL (upperS (trimS s)).data).any
      (fun c => decide (c ∈ (['X', 'Y'] : List Char))) = true)
    (hext : extractParams ['X', 'Y'] (trimL (upperS (trimS s)).data) [] false
      = some (ps, fd)) :
    parseStep db st s = some ({ raw := trimS s,
                                type := some LineType.XY,
                                params := ps,
                                active_g_modal_groups := st.grps }, st)
    ∧ dumpLines fmtQ fmtE { raw := trimS s,
                            type := some LineType.XY,
                            params := ps,
                            active_g_modal_groups := st.grps }
      = [renderFields fmtQ .empty ps ""]
    ∧ (ps = [] → renderFields fmtQ .empty ps "" = "") := by
  have hm : ¬(multiCodes (trimS (upperS (trimS s)))).length > 1 := by omega
  have hfd : fd = true := by
    have h := extractParamsGo_found ['X', 'Y'] _ _ [] false ps fd
      (le_refl _) hext
    rw [h, Bool.false_or, hany]
  subst hfd
  refine ⟨?_, ?_, ?_⟩
  · unfold parseStep mkCodeLine
    rw [if_neg hm, hpref]
    simp only [parse_XY_line, hext, Option.bind_eq_bind, Option.some_bind,
      Option.pure_def, Option.map_some', if_true, set_active_g_modal_empty]
  · simp [dumpLines]
  · intro h
    subst h
    rfl

/-- C10 witness: the unmatched line `Q XRAY` contains the letters X and Y
only inside another word with no numeric values, is reclassified XY with
an empty parameter dict, and is emitted as an empty line. -/
theorem bare_xy_reclassify_witness :
    parseStep dbEx {} "Q XRAY" = some ({ raw := trimS "Q XRAY",
                                         type := some LineType.XY,
                                         params := [],
                                         active_g_modal_groups :=
                                           ({} : PState).grps }, {})
    ∧ dumpLines (fun _ => "") (fun _ => "")
        { raw := trimS "Q XRAY",
          type := some LineType.XY,
          params := [],
          active_g_modal_groups := ({} : PState).grps }
      = [renderFields (fun _ => "") .empty [] ""]
    ∧ renderFields (fun _ => "") .empty ([] : List (Char × ℚ)) "" = "" := by
  have h := bare_xy_reclassify dbEx {} "Q XRAY" (fun _ => "") (fun _ => "")
    [] true (by decide) (by decide) (by decide) (by decide)
  exact ⟨h.1, h.2.1, h.2.2 rfl⟩

/-! ### C7: cutter compensation -/

/-- C7 (amended): a single-command line whose prefix match selects the
cutter-compensation handler is removed (nothing is serialized) with
exactly one diagnostic; a multi-command line that is not a Tx-M6 combo is
likewise removed when it carries compensation codes, with one diagnostic
per compensation code the scanner finds. -/
theorem cutter_comp_removed (db : ℤ → Option CutProcess) (st : PState)
    (s : String) (fmtQ : ℚ → String) (fmtE : GCode → String) :
    ((multiCodes (trimS (upperS (trimS s)))).length ≤ 1 →
      ∀ k ty, TOKENS.find? (fun t => startsWithS (upperS (trimS s)) t.1)
          = some (k, ty, Hd.compErr) →
      ((parseStep db st s).map fun p =>
        (p.1.stderr_count, p.1.type, p.1.compError, dumpLines fmtQ fmtE p.1))
        = some (1, some .REMOVE, true, []))
    ∧ ((multiCodes (trimS (upperS (trimS s)))).length > 1 →
      (findallTM6 (trimS (upperS (trimS s)))).length ≠ 2 →
      0 < ((multiCodes (trimS (upperS (trimS s)))).filter
        (fun c => decide (c ∈ compCodes))).length →
      ((parseStep db st s).map fun p =>
        (p.1.stderr_count, p.1.type, p.1.compError, dumpLines fmtQ fmtE p.1))
        = some (((multiCodes (trimS (upperS (trimS s)))).filter
            (fun c => decide (c ∈ compCodes))).length,
          some .REMOVE, true, [])) := by
  constructor
  · intro hm1 k ty hpref
    have hm : ¬(multiCodes (trimS (upperS (trimS s)))).length > 1 := by omega
    obtain ⟨cmt, hic⟩ := parse_inline_comment_eq
      (cutter_comp_error { raw := trimS s, type := some ty, token := k })
    unfold parseStep mkCodeLine
    rw [if_neg hm, hpref]
    simp only [dispatch, cutter_comp_error] at hic ⊢
    simp only [hic, Option.bind_eq_bind, Option.some_bind, Option.pure_def,
      Option.map_some']
    simp [dumpLines]
  · intro hm hc hcc
    unfold parseStep mkCodeLine
    rw [if_pos hm, if_neg hc, if_pos hcc]
    simp only [Option.map_some']
    simp [dumpLines, set_active_g_modal_empty]

/-- C7 witness: the single-command line `G41 X5` is removed with exactly
one diagnostic, and the two-command line `G90 G41` (no Tx-M6 combo) is
removed with one diagnostic for its one compensation code. -/
theorem cutter_comp_removed_witness :
    ((parseStep dbEx {} "G41 X5").map fun p =>
      (p.1.stderr_count, p.1.type, p.1.compError,
       dumpLines (fun _ => "") (fun _ => "") p.1))
      = some (1, some .REMOVE, true, [])
    ∧ ((parseStep dbEx {} "G90 G41").map fun p =>
      (p.1.stderr_count, p.1.type, p.1.compError,
       dumpLines (fun _ => "") (fun _ => "") p.1))
      = some (1, some .REMOVE, true, []) := by
  constructor
  · exact (cutter_comp_removed dbEx {} "G41 X5" (fun _ => "")
      (fun _ => "")).1 (by decide) "G41" .CUTTER_COMP_LEFT (by decide)
  · have h := (cutter_comp_removed dbEx {} "G90 G41" (fun _ => "")
      (fun _ => "")).2 (by decide) (by decide) (by decide)
    have he : ((multiCodes (trimS (upperS (trimS "G90 G41")))).filter
        (fun c => decide (c ∈ compCodes))).length = 1 := by decide
    rw [he] at h
    exact h

/-- C7 counterexample: the line `X5 G41` contains the compensation code
G41 (the multi-code scanner finds exactly that one token), yet the
classifier emits no diagnostic at all — the claim's "exactly one
diagnostic per occurrence" fails whenever the compensation code is not the
line's leading token on a single-command line. -/
theorem cutter_comp_missed_diag_cex :
    (multiCodes (trimS (upperS (trimS "X5 G41")))).count "G41" = 1
    ∧ ((parseStep dbEx {} "X5 G41").map fun p => p.1.stderr_count) = some 0 := by
  refine ⟨by decide, by decide⟩

/-! ### C1: hole detection -/

/-- C1: for a G3 arc whose pre-arc cursor is recoverable on both axes (the
nearest prior lines that set X and Y while the group-1 snapshot was a
motion code) and that carries I and J offsets, the detector computes the
implied endpoint (explicit parameter, or the carried-forward cursor value
for an omitted axis) and flags the line as a hole exactly when that
endpoint equals the recovered cursor on both axes, with no tolerance; the
hole geometry then places the centre at endpoint + (I, J), and the
diameter 2·radius, with radius the distance from centre to endpoint,
equals 2·√(I² + J²). -/
theorem hole_detection_spec (line : CodeLine) (prevs : List CodeLine)
    (lastx lasty ai aj : ℚ)
    (hx : findLast 'X' prevs = some lastx)
    (hy : findLast 'Y' prevs = some lasty)
    (hI : lookupD line.params 'I' = some ai)
    (hJ : lookupD line.params 'J' = some aj) :
    holeTest line prevs =
      some (decide ((lookupD line.params 'X').getD lastx = lastx ∧
                    (lookupD line.params 'Y').getD lasty = lasty),
            (lookupD line.params 'X').getD lastx,
            (lookupD line.params 'Y').getD lasty, lastx, lasty)
    ∧ (∀ b ex ey lx ly, holeTest line prevs = some (b, ex, ey, lx, ly) →
        (b = true ↔ ex = lx ∧ ey = ly))
    ∧ holeGeometry line ((lookupD line.params 'X').getD lastx)
        ((lookupD line.params 'Y').getD lasty) =
      some ((lookupD line.params 'X').getD lastx + ai,
            (lookupD line.params 'Y').getD lasty + aj,
            line_length_sq ((lookupD line.params 'X').getD lastx + ai)
              ((lookupD line.params 'Y').getD lasty + aj)
              ((lookupD line.params 'X').getD lastx)
              ((lookupD line.params 'Y').getD lasty))
    ∧ 2 * Real.sqrt ((line_length_sq
          ((lookupD line.params 'X').getD lastx + ai)
          ((lookupD line.params 'Y').getD lasty + aj)
          ((lookupD line.params 'X').getD lastx)
          ((lookupD line.params 'Y').getD lasty) : ℚ) : ℝ)
      = 2 * Real.sqrt (((ai ^ 2 + aj ^ 2 : ℚ) : ℝ)) := by
  have h1 : holeTest line prevs =
      some (decide ((lookupD line.params 'X').getD lastx = lastx ∧
                    (lookupD line.params 'Y').getD lasty = lasty),
            (lookupD line.params 'X').getD lastx,
            (lookupD line.params 'Y').getD lasty, lastx, lasty) := by
    simp only [holeTest, hx, hy, Option.bind_eq_bind, Option.some_bind,
      Option.pure_def]
  refine ⟨h1, ?_, ?_, ?_⟩
  · intro b ex ey lx ly h2
    rw [h1] at h2
    simp only [Option.some.injEq, Prod.mk.injEq] at h2
    obtain ⟨hb, hex, hey, hlx, hly⟩ := h2
    subst hb
    subst hex
    subst hey
    subst hlx
    subst hly
    simp
  · simp only [holeGeometry, hI, hJ, Option.bind_eq_bind, Option.some_bind,
      Option.pure_def]
  · have h3 : line_length_sq ((lookupD line.params 'X').getD lastx + ai)
        ((lookupD line.params 'Y').getD lasty + aj)
        ((lookupD line.params 'X').getD lastx)
        ((lookupD line.params 'Y').getD lasty) = ai ^ 2 + aj ^ 2 := by
      unfold line_length_sq
      ring
    rw [h3]

/-- The parser state after the spec example's `G1 X0 Y0` line. -/
def g1St : PState := ((parseStep dbEx {} "G1 X0 Y0").map Prod.snd).getD {}

/-- The parsed `G1 X0 Y0` line of the spec example. -/
def g1Cl : CodeLine :=
  ((parseStep dbEx {} "G1 X0 Y0").map Prod.fst).getD { raw := "" }

/-- The parsed `G3 X0 Y0 I5 J0` arc of the spec example. -/
def arcCl : CodeLine :=
  ((parseStep dbEx g1St "G3 X0 Y0 I5 J0").map Prod.fst).getD { raw := "" }

/-- The same arc with endpoint (1, 0) ≠ (0, 0). -/
def arcBadCl : CodeLine :=
  ((parseStep dbEx g1St "G3 X1 Y0 I5 J0").map Prod.fst).getD { raw := "" }

/-- C1 witness: after `G1 X0 Y0`, the arc `G3 X0 Y0 I5 J0` is flagged as a
hole with centre (5, 0), squared radius 25 and hence diameter
2·√25 = 10, while the same arc with endpoint (1, 0) is not flagged. -/
theorem hole_detection_spec_witness :
    holeTest arcCl [g1Cl] = some (true, 0, 0, 0, 0)
    ∧ holeGeometry arcCl 0 0 = some (5, 0, 25)
    ∧ 2 * Real.sqrt ((25 : ℚ) : ℝ) = 10
    ∧ holeTest arcBadCl [g1Cl] = some (false, 1, 0, 0, 0) := by
  have h := hole_detection_spec arcCl [g1Cl] 0 0 5 0 (by decide) (by decide)
    (by decide) (by decide)
  refine ⟨?_, by decide, ?_, by decide⟩
  · rw [h.1]
    decide
  · rw [show ((25 : ℚ) : ℝ) = (5 : ℝ) ^ 2 by norm_num,
      Real.sqrt_sq (by norm_num : (0 : ℝ) ≤ 5)]
    norm_num

end PlasmaGcode
